import Mathlib

/-!
Verification of the OWRCare decode-and-reconcile data model
(`custom_components/owr_care/owrcare/models.py`).

The Python module is a tree of dataclasses, each with a `from_dict`
constructor (full decode) and most with an `update_from_dict` partial merge.
We embed the module shallowly:

* JSON documents of the schema's shape become `...Doc` structures whose
  fields are `Option`-valued (a `none` field models a key that is absent,
  or present with JSON `null` -- both make Python's `dict.get` return
  `None`).
* Runtime dataclass instances become structures whose scalar fields are
  `Option Int` / `Option String` (a Python attribute can hold `None`,
  a plain `int`/`str`, or an `IntEnum` member; an `IntEnum` member is
  observationally its integer value, so we store the integer).
* Python exceptions become the `PyError` type.  `from_dict` functions
  return `Except PyError _`.  `update_from_dict` mutates `self` in place
  and may raise midway, so its embedding returns the final (possibly
  partially mutated) record together with the raised error, if any:
  `σ → σ × Option PyError`.
* Each `if _x := data.get("k"): self.f = ...` statement of an
  `update_from_dict` body becomes one element of a list of atomic
  updaters, run in source order with Python's first-raise-wins semantics
  by `runChain`.  Python truthiness is modelled per type: an integer is
  truthy iff nonzero, a string iff nonempty, a dict iff it has a key,
  a list iff nonempty.
-/

namespace OwrCare

/-- Python exceptions raised by the module.  The first four constructors
are the builtin exceptions that the source can actually raise:
`valueError name v` is the `ValueError` an `IntEnum` constructor raises
("v is not a valid name"), `attributeError` models calling `.get` on
`None`, `typeError` models subscripting `None`, `indexError` models
indexing an empty list.

Modelled from the spec: the repository's `exceptions` module is imported
by `models.py` but is not under `src/`; the spec's error taxonomy names
the typed failures `InvalidEnumValue` (field name and offending value),
`MissingField` (field path) and `MalformedDocument`.  The last three
constructors embed those spec-level errors so that claims about them can
be stated; the source never constructs them. -/
inductive PyError : Type where
  | valueError (enumName : String) (val : Option Int)
  | attributeError (attr : String)
  | typeError
  | indexError
  | invalidEnumValue (field : String) (val : Int)
  | missingField (path : String)
  | malformedDocument
deriving DecidableEq

/-- `pyEnum name vals v` embeds the Python `IntEnum` constructor call
`Name(v)` for an enum with member values `vals`: a valid member value is
returned unchanged (an `IntEnum` member equals its integer), anything
else -- including `None` -- raises `ValueError`. -/
def pyEnum (name : String) (vals : List Int) : Option Int → Except PyError Int
  | none => .error (.valueError name none)
  | some i => if i ∈ vals then .ok i else .error (.valueError name (some i))

/-- An in-place update step: final state plus the exception it raised,
if any. -/
abbrev Upd (σ : Type) : Type := σ → σ × Option PyError

/-- Run a list of update statements in order; a raised exception stops
execution and leaves the state as it was at the raise (Python exception
semantics for a method mutating `self`). -/
def runChain {σ : Type} : List (Upd σ) → Upd σ
  | [] => fun s => (s, none)
  | f :: l => fun s =>
    match f s with
    | (s1, none) => runChain l s1
    | (s1, some e) => (s1, some e)

/-- One `if _x := data.get(k): self.f = conv(_x)` statement: skipped when
the key is absent (`none`) or the value is falsy; otherwise `conv`
(embedded by `mk`, which may raise) is applied and the result assigned
by `set`. -/
def updF {σ α β : Type} (v : Option α) (tr : α → Bool) (mk : α → Except PyError β)
    (set : σ → β → σ) : Upd σ := fun s =>
  match v with
  | some x =>
    if tr x then
      match mk x with
      | .ok b => (set s b, none)
      | .error e => (s, some e)
    else (s, none)
  | none => (s, none)

/-- One `if _x := data.get(k): self.child.update_from_dict(_x)` statement:
the owned child is merged in place; a raise inside the child keeps the
child's partial mutation and propagates. -/
def updMerge {σ δ τ : Type} (v : Option δ) (tr : δ → Bool)
    (child : τ → δ → τ × Option PyError) (get : σ → τ) (set : σ → τ → σ) : Upd σ := fun s =>
  match v with
  | some d =>
    if tr d then
      let r := child (get s) d
      (set s r.1, r.2)
    else (s, none)
  | none => (s, none)

theorem runChain_cons {σ : Type} (f : Upd σ) (l : List (Upd σ)) (s : σ) :
    runChain (f :: l) s =
      match f s with
      | (s1, none) => runChain l s1
      | (s1, some e) => (s1, some e) := rfl

/-- `f` leaves the component `π` of the state unchanged (also on a raise). -/
def Pres {σ τ : Type} (f : Upd σ) (π : σ → τ) : Prop := ∀ s, π (f s).1 = π s

/-- Running `f` twice in a row from any state gives the same final state
and the same raised error as running it once. -/
def ReplayP {σ : Type} (f : Upd σ) : Prop := ∀ s, f (f s).1 = f s

/-- States on which `f` is a clean no-op stay so after `g` runs. -/
def FixPres {σ : Type} (f g : Upd σ) : Prop :=
  ∀ s, f s = (s, none) → f ((g s).1) = ((g s).1, none)

/-- The state change of `g` commutes with the assignment `set`. -/
def Comm {σ α : Type} (set : σ → α → σ) (g : Upd σ) : Prop :=
  ∀ s v, (g (set s v)).1 = set ((g s).1) v

/-- Every earlier statement's clean-no-op states survive all later
statements (pairwise condition for idempotence of a chain). -/
def AllFix {σ : Type} : List (Upd σ) → Prop
  | [] => True
  | f :: l => (∀ g ∈ l, FixPres f g) ∧ AllFix l

theorem pres_updF {σ α β τ : Type} {v : Option α} {tr : α → Bool}
    {mk : α → Except PyError β} {set : σ → β → σ} {π : σ → τ}
    (h : ∀ s b, π (set s b) = π s) : Pres (updF v tr mk set) π := by
  intro s
  unfold updF
  cases v with
  | none => rfl
  | some x =>
    cases htr : tr x with
    | false => simp [htr]
    | true =>
      simp only [htr, if_true]
      cases mk x with
      | ok b => exact h s b
      | error e => rfl

theorem pres_updF_none {σ α β τ : Type} {tr : α → Bool}
    {mk : α → Except PyError β} {set : σ → β → σ} {π : σ → τ} :
    Pres (updF (none : Option α) tr mk set) π := fun _ => rfl

theorem pres_updMerge {σ δ τ ρ : Type} {v : Option δ} {tr : δ → Bool}
    {child : τ → δ → τ × Option PyError} {get : σ → τ} {set : σ → τ → σ} {π : σ → ρ}
    (h : ∀ s t, π (set s t) = π s) : Pres (updMerge v tr child get set) π := by
  intro s
  unfold updMerge
  cases v with
  | none => rfl
  | some d =>
    cases htr : tr d with
    | false => simp [htr]
    | true => simp only [htr, if_true]; exact h s _

theorem pres_updMerge_none {σ δ τ ρ : Type} {tr : δ → Bool}
    {child : τ → δ → τ × Option PyError} {get : σ → τ} {set : σ → τ → σ} {π : σ → ρ} :
    Pres (updMerge (none : Option δ) tr child get set) π := fun _ => rfl

theorem pres_runChain {σ τ : Type} (π : σ → τ) (l : List (Upd σ))
    (h : ∀ f ∈ l, Pres f π) : Pres (runChain l) π := by
  induction l with
  | nil => intro s; rfl
  | cons f l ih =>
    intro s
    have hf : π ((f s).1) = π s := h f (by simp) s
    have hl : Pres (runChain l) π := ih (fun g hg => h g (by simp [hg]))
    rcases hfs : f s with ⟨s1, e1⟩
    cases e1 with
    | none =>
      have h1 : runChain (f :: l) s = runChain l s1 := by
        rw [runChain_cons, hfs]
      rw [h1]
      have : π s1 = π s := by rw [← hf, hfs]
      rw [hl s1, this]
    | some e =>
      have h1 : runChain (f :: l) s = (s1, some e) := by
        rw [runChain_cons, hfs]
      rw [h1]
      rw [← hf, hfs]

theorem replay_updF {σ α β : Type} {v : Option α} {tr : α → Bool}
    {mk : α → Except PyError β} {set : σ → β → σ}
    (h : ∀ s b, set (set s b) b = set s b) : ReplayP (updF v tr mk set) := by
  intro s
  unfold updF
  cases v with
  | none => rfl
  | some x =>
    cases htr : tr x with
    | false => simp [htr]
    | true =>
      simp only [htr, if_true]
      cases hmk : mk x with
      | ok b => simp [hmk, h]
      | error e => simp [hmk]

theorem replay_updMerge {σ δ τ : Type} {v : Option δ} {tr : δ → Bool}
    {child : τ → δ → τ × Option PyError} {get : σ → τ} {set : σ → τ → σ}
    (hget : ∀ s t, get (set s t) = t)
    (hset : ∀ s t u, set (set s t) u = set s u)
    (hchild : ∀ d c, child (child c d).1 d = child c d) :
    ReplayP (updMerge v tr child get set) := by
  intro s
  unfold updMerge
  cases v with
  | none => rfl
  | some d =>
    cases htr : tr d with
    | false => simp [htr]
    | true =>
      simp only [htr, if_true]
      simp only [hget, hchild, hset]

theorem comm_updF {σ α γ β : Type} {set : σ → γ → σ} {w : Option α} {tr : α → Bool}
    {mk : α → Except PyError β} {setB : σ → β → σ}
    (h : ∀ s v b, setB (set s v) b = set (setB s b) v) :
    Comm set (updF w tr mk setB) := by
  intro s v
  unfold updF
  cases w with
  | none => rfl
  | some x =>
    cases htr : tr x with
    | false => simp [htr]
    | true =>
      simp only [htr, if_true]
      cases mk x with
      | ok b => exact h s v b
      | error e => rfl

theorem comm_updMerge {σ α δ τ : Type} {set : σ → α → σ} {w : Option δ} {tr : δ → Bool}
    {child : τ → δ → τ × Option PyError} {get : σ → τ} {setB : σ → τ → σ}
    (hget : ∀ s v, get (set s v) = get s)
    (h : ∀ s v t, setB (set s v) t = set (setB s t) v) :
    Comm set (updMerge w tr child get setB) := by
  intro s v
  unfold updMerge
  cases w with
  | none => rfl
  | some d =>
    cases htr : tr d with
    | false => simp [htr]
    | true =>
      simp only [htr, if_true]
      rw [hget, h]

theorem fixPres_updF {σ α β : Type} {v : Option α} {tr : α → Bool}
    {mk : α → Except PyError β} {set : σ → β → σ} {g : Upd σ}
    (hc : Comm set g) : FixPres (updF v tr mk set) g := by
  intro s hs
  unfold updF at hs ⊢
  cases v with
  | none => rfl
  | some x =>
    cases htr : tr x with
    | false => simp [htr]
    | true =>
      simp only [htr, if_true] at hs ⊢
      cases hmk : mk x with
      | ok b =>
        simp only [hmk] at hs ⊢
        have h1 : set s b = s := congrArg Prod.fst hs
        rw [← hc s b, h1]
      | error e =>
        simp only [hmk] at hs
        exact absurd (congrArg Prod.snd hs) (by simp)

theorem fixPres_updMerge {σ δ τ : Type} {v : Option δ} {tr : δ → Bool}
    {child : τ → δ → τ × Option PyError} {get : σ → τ} {set : σ → τ → σ} {g : Upd σ}
    (hpres : Pres g get) (hc : Comm set g) :
    FixPres (updMerge v tr child get set) g := by
  intro s hs
  unfold updMerge at hs ⊢
  cases v with
  | none => rfl
  | some d =>
    cases htr : tr d with
    | false => simp [htr]
    | true =>
      simp only [htr, if_true] at hs ⊢
      have h1 : set s (child (get s) d).1 = s := congrArg Prod.fst hs
      have h2 : (child (get s) d).2 = none := congrArg Prod.snd hs
      rw [hpres s, h2, ← hc s (child (get s) d).1, h1]

theorem fixPres_runChain {σ : Type} (f : Upd σ) (l : List (Upd σ))
    (h : ∀ g ∈ l, FixPres f g) : FixPres f (runChain l) := by
  induction l with
  | nil => intro s hs; exact hs
  | cons g l ih =>
    intro s hs
    have hg : FixPres f g := h g (by simp)
    have hl : FixPres f (runChain l) := ih (fun g' hg' => h g' (by simp [hg']))
    rcases hgs : g s with ⟨s1, e1⟩
    have hstate : f s1 = (s1, none) := by
      have := hg s hs
      rw [hgs] at this
      exact this
    cases e1 with
    | some e =>
      have h1 : runChain (g :: l) s = (s1, some e) := by
        rw [runChain_cons, hgs]
      rw [h1]
      exact hstate
    | none =>
      have h1 : runChain (g :: l) s = runChain l s1 := by
        rw [runChain_cons, hgs]
      rw [h1]
      exact hl s1 hstate

theorem replay_runChain {σ : Type} (l : List (Upd σ)) (hR : ∀ f ∈ l, ReplayP f)
    (hP : AllFix l) : ReplayP (runChain l) := by
  induction l with
  | nil => intro s; rfl
  | cons f l ih =>
    have hRf : ReplayP f := hR f (by simp)
    have hRl : ReplayP (runChain l) := ih (fun g hg => hR g (by simp [hg])) hP.2
    have hFix : ∀ g ∈ l, FixPres f g := hP.1
    intro s
    rcases hfs : f s with ⟨s1, e1⟩
    cases e1 with
    | some e =>
      have h1 : runChain (f :: l) s = (s1, some e) := by
        rw [runChain_cons, hfs]
      rw [h1]
      have h2 : f s1 = (s1, some e) := by
        have := hRf s
        rw [hfs] at this
        exact this
      rw [runChain_cons, h2]
    | none =>
      have h1 : runChain (f :: l) s = runChain l s1 := by
        rw [runChain_cons, hfs]
      rw [h1]
      have hfs1 : f s1 = (s1, none) := by
        have := hRf s
        rw [hfs] at this
        exact this
      have hclean : f ((runChain l s1).1) = ((runChain l s1).1, none) :=
        fixPres_runChain f l hFix s1 hfs1
      rw [runChain_cons, hclean]
      exact hRl s1

/-! ## Document (JSON) shapes

One structure per JSON object shape consumed by the module.  A field is
`none` when the key is absent from the document. -/

structure BodyLocationDoc where
  x : Option Int := none
  y : Option Int := none
  z : Option Int := none
deriving DecidableEq

structure WaveDoc where
  w0 : Option Int := none
  w1 : Option Int := none
  w2 : Option Int := none
  w3 : Option Int := none
  w4 : Option Int := none
deriving DecidableEq

structure BodyDoc where
  range : Option Int := none
  presence : Option Int := none
  energy : Option Int := none
  movement : Option Int := none
  distance : Option Int := none
  location : Option BodyLocationDoc := none
deriving DecidableEq

structure HeartDoc where
  rate : Option Int := none
  waves : Option WaveDoc := none
deriving DecidableEq

structure BreathDoc where
  info : Option Int := none
  rate : Option Int := none
  waves : Option WaveDoc := none
deriving DecidableEq

structure SleepOverviewDoc where
  presence : Option Int := none
  status : Option Int := none
  breath : Option Int := none
  heart : Option Int := none
  turn : Option Int := none
  leratio : Option Int := none
  seratio : Option Int := none
  pause : Option Int := none
deriving DecidableEq

structure SleepQualityDoc where
  score : Option Int := none
  duration : Option Int := none
  awake : Option Int := none
  light : Option Int := none
  deep : Option Int := none
  aduration : Option Int := none
  away : Option Int := none
  turn : Option Int := none
  breath : Option Int := none
  heart : Option Int := none
  pause : Option Int := none
deriving DecidableEq

structure SleepDoc where
  away : Option Int := none
  status : Option Int := none
  awake : Option Int := none
  light : Option Int := none
  deep : Option Int := none
  score : Option Int := none
  overview : Option SleepOverviewDoc := none
  quality : Option SleepQualityDoc := none
  exception : Option Int := none
  rating : Option Int := none
  struggle : Option Int := none
  nobody : Option Int := none
deriving DecidableEq

structure StateDoc where
  timestamp : Option Int := none
  body : Option BodyDoc := none
  heart : Option HeartDoc := none
  breath : Option BreathDoc := none
  sleep : Option SleepDoc := none
deriving DecidableEq

structure InfoDoc where
  model : Option String := none
  id : Option String := none
  hardware : Option String := none
  firmware : Option String := none
  version : Option String := none
  free_heap : Option Int := none
  ip : Option String := none
  mac_addr : Option String := none
  mac : Option String := none
  name : Option String := none
deriving DecidableEq

structure SettingDoc where
  binding_count : Option Int := none
  binding : Option Int := none
  realtime_ws : Option Int := none
  realtime_mq : Option Int := none
  body : Option Int := none
  heart : Option Int := none
  breath : Option Int := none
  sleep : Option Int := none
  mode : Option Int := none
  nobody : Option Int := none
  nobody_duration : Option Int := none
  struggle : Option Int := none
  stop_duration : Option Int := none
deriving DecidableEq

structure DeviceDoc where
  setting : Option SettingDoc := none
  info : Option InfoDoc := none
  states : Option (List StateDoc) := none
deriving DecidableEq

/-! Python dict truthiness: a dict is truthy iff it is nonempty, i.e. it
has at least one key. -/

def BodyLocationDoc.isTruthy (d : BodyLocationDoc) : Bool :=
  d.x.isSome || d.y.isSome || d.z.isSome

def WaveDoc.isTruthy (d : WaveDoc) : Bool :=
  d.w0.isSome || d.w1.isSome || d.w2.isSome || d.w3.isSome || d.w4.isSome

def BodyDoc.isTruthy (d : BodyDoc) : Bool :=
  d.range.isSome || d.presence.isSome || d.energy.isSome || d.movement.isSome ||
    d.distance.isSome || d.location.isSome

def HeartDoc.isTruthy (d : HeartDoc) : Bool :=
  d.rate.isSome || d.waves.isSome

def BreathDoc.isTruthy (d : BreathDoc) : Bool :=
  d.info.isSome || d.rate.isSome || d.waves.isSome

def SleepOverviewDoc.isTruthy : SleepOverviewDoc → Bool
  | ⟨p, st, b, h, t, lr, sr, pa⟩ =>
    p.isSome || st.isSome || b.isSome || h.isSome || t.isSome || lr.isSome ||
      sr.isSome || pa.isSome

def SleepQualityDoc.isTruthy : SleepQualityDoc → Bool
  | ⟨sc, du, aw, li, de, ad, away, tu, br, he, pa⟩ =>
    sc.isSome || du.isSome || aw.isSome || li.isSome || de.isSome || ad.isSome ||
      away.isSome || tu.isSome || br.isSome || he.isSome || pa.isSome

def SleepDoc.isTruthy (d : SleepDoc) : Bool :=
  d.away.isSome || d.status.isSome || d.awake.isSome || d.light.isSome ||
    d.deep.isSome || d.score.isSome || d.overview.isSome || d.quality.isSome ||
    d.exception.isSome || d.rating.isSome || d.struggle.isSome || d.nobody.isSome

def StateDoc.isTruthy (d : StateDoc) : Bool :=
  d.timestamp.isSome || d.body.isSome || d.heart.isSome || d.breath.isSome ||
    d.sleep.isSome

def InfoDoc.isTruthy (d : InfoDoc) : Bool :=
  d.model.isSome || d.id.isSome || d.hardware.isSome || d.firmware.isSome ||
    d.version.isSome || d.free_heap.isSome || d.ip.isSome || d.mac_addr.isSome ||
    d.mac.isSome || d.name.isSome

def SettingDoc.isTruthy (d : SettingDoc) : Bool :=
  d.binding_count.isSome || d.binding.isSome || d.realtime_ws.isSome ||
    d.realtime_mq.isSome || d.body.isSome || d.heart.isSome || d.breath.isSome ||
    d.sleep.isSome || d.mode.isSome || d.nobody.isSome || d.nobody_duration.isSome ||
    d.struggle.isSome || d.stop_duration.isSome

/-! ## Runtime records

One structure per dataclass.  A scalar attribute holds `none` (Python
`None`) or a value; an `IntEnum`-typed attribute is stored as its integer
value (an `IntEnum` member is observationally equal to its `int`). -/

structure BodyLocation where
  x : Option Int
  y : Option Int
  z : Option Int
deriving DecidableEq

structure Body where
  range : Option Int
  presence : Option Int
  energy : Option Int
  movement : Option Int
  distance : Option Int
  location : BodyLocation
deriving DecidableEq

structure Wave where
  w0 : Option Int
  w1 : Option Int
  w2 : Option Int
  w3 : Option Int
  w4 : Option Int
deriving DecidableEq

structure Heart where
  rate : Option Int
  waves : Wave
deriving DecidableEq

structure Breath where
  info : Option Int
  rate : Option Int
  waves : Wave
deriving DecidableEq

structure SleepOverview where
  presence : Option Int
  status : Option Int
  breath : Option Int
  heart : Option Int
  turn : Option Int
  leratio : Option Int
  seratio : Option Int
  pause : Option Int
deriving DecidableEq

structure SleepQuality where
  score : Option Int
  duration : Option Int
  awake : Option Int
  light : Option Int
  deep : Option Int
  aduration : Option Int
  away : Option Int
  turn : Option Int
  breath : Option Int
  heart : Option Int
  pause : Option Int
deriving DecidableEq

structure Sleep where
  away : Option Int
  status : Option Int
  awake : Option Int
  light : Option Int
  deep : Option Int
  score : Option Int
  overview : SleepOverview
  quality : SleepQuality
  exception : Option Int
  rating : Option Int
  struggle : Option Int
  nobody : Option Int
deriving DecidableEq

structure State where
  timestamp : Option Int
  body : Body
  heart : Heart
  breath : Breath
  sleep : Sleep
deriving DecidableEq

/-- `mac` embeds the attribute that `Info.update_from_dict` creates with
`self.mac = _mac`; it does not exist on a freshly decoded object
(`none`), and is distinct from the `mac_addr` field. -/
structure Info where
  model : Option String
  id : Option String
  hardware : Option String
  firmware : Option String
  version : Option String
  free_heap : Option Int
  ip : Option String
  mac_addr : Option String
  name : Option String
  mac : Option String
deriving DecidableEq

structure Setting where
  binding_count : Option Int
  binding : Option Int
  realtime_ws : Option Int
  realtime_mq : Option Int
  body : Option Int
  heart : Option Int
  breath : Option Int
  sleep : Option Int
  mode : Option Int
  nobody : Option Int
  nobody_duration : Option Int
  struggle : Option Int
  stop_duration : Option Int
deriving DecidableEq

structure Device where
  setting : Setting
  info : Info
  state : State
deriving DecidableEq

/-! ## Decoders (`from_dict`)

Each takes the value of `data.get(key)` for its key, so the argument is
optional: calling a decoder on `none` embeds Python's
`None.get(...)` -> `AttributeError`.  Field expressions are evaluated in
the keyword-argument order of the source, so the first failing
conversion wins. -/

def BodyLocation.from_dict : Option BodyLocationDoc → Except PyError BodyLocation
  | none => .error (.attributeError "get")
  | some d => .ok ⟨d.x, d.y, d.z⟩

def Body.from_dict : Option BodyDoc → Except PyError Body
  | none => .error (.attributeError "get")
  | some d => do
    let r ← pyEnum "BodyRange" [0, 1] d.range
    let p ← pyEnum "BodyPresence" [0, 1] d.presence
    let m ← pyEnum "BodyMovement" [0, 1, 2] d.movement
    let loc ← BodyLocation.from_dict d.location
    .ok ⟨some r, some p, d.energy, some m, d.distance, loc⟩

def Wave.from_dict : Option WaveDoc → Except PyError Wave
  | none => .error (.attributeError "get")
  | some d => .ok ⟨d.w0, d.w1, d.w2, d.w3, d.w4⟩

def Heart.from_dict : Option HeartDoc → Except PyError Heart
  | none => .error (.attributeError "get")
  | some d => do
    let w ← Wave.from_dict d.waves
    .ok ⟨d.rate, w⟩

def Breath.from_dict : Option BreathDoc → Except PyError Breath
  | none => .error (.attributeError "get")
  | some d => do
    let i ← pyEnum "BreathInfo" [0, 1, 2, 3, 4] d.info
    let w ← Wave.from_dict d.waves
    .ok ⟨some i, d.rate, w⟩

def SleepOverview.from_dict : Option SleepOverviewDoc → Except PyError SleepOverview
  | none => .error (.attributeError "get")
  | some ⟨p, st, b, h, t, lr, sr, pa⟩ => do
    let pv ← pyEnum "BodyPresence" [0, 1] p
    let sv ← pyEnum "SleepStatus" [0, 1, 2, 3] st
    .ok ⟨some pv, some sv, b, h, t, lr, sr, pa⟩

def SleepQuality.from_dict : Option SleepQualityDoc → Except PyError SleepQuality
  | none => .error (.attributeError "get")
  | some ⟨sc, du, aw, li, de, ad, away, tu, br, he, pa⟩ =>
    .ok ⟨sc, du, aw, li, de, ad, away, tu, br, he, pa⟩

/-- Note the source stores `data.get("away")` and `data.get("status")`
raw, without an enum constructor, so they are not validated here. -/
def Sleep.from_dict : Option SleepDoc → Except PyError Sleep
  | none => .error (.attributeError "get")
  | some d => do
    let ov ← SleepOverview.from_dict d.overview
    let qu ← SleepQuality.from_dict d.quality
    let ex ← pyEnum "SleepException" [0, 1, 2, 3] d.exception
    let ra ← pyEnum "SleepRating" [0, 1, 2, 3] d.rating
    let st ← pyEnum "SleepStruggle" [0, 1, 2] d.struggle
    let no ← pyEnum "SleepNobody" [0, 1, 2] d.nobody
    .ok ⟨d.away, d.status, d.awake, d.light, d.deep, d.score, ov, qu,
      some ex, some ra, some st, some no⟩

/-- `states` elements are dicts, so this decoder takes a plain doc. -/
def State.from_dict (d : StateDoc) : Except PyError State := do
  let b ← Body.from_dict d.body
  let h ← Heart.from_dict d.heart
  let br ← Breath.from_dict d.breath
  let sl ← Sleep.from_dict d.sleep
  .ok ⟨d.timestamp, b, h, br, sl⟩

/-- Every leaf uses `data.get(key, None)`: a missing key becomes `None`,
never an error. -/
def Info.from_dict : Option InfoDoc → Except PyError Info
  | none => .error (.attributeError "get")
  | some d =>
    .ok ⟨d.model, d.id, d.hardware, d.firmware, d.version, d.free_heap, d.ip,
      d.mac_addr, d.name, none⟩

/-- Every leaf uses `data.get(key, None)` raw: no switch is validated. -/
def Setting.from_dict : Option SettingDoc → Except PyError Setting
  | none => .error (.attributeError "get")
  | some d =>
    .ok ⟨d.binding_count, d.binding, d.realtime_ws, d.realtime_mq, d.body,
      d.heart, d.breath, d.sleep, d.mode, d.nobody, d.nobody_duration,
      d.struggle, d.stop_duration⟩

/-- `Device.from_dict`: `data.get("states")[0]` subscripts `None` when the
key is absent (`TypeError`) and an empty list raises `IndexError`. -/
def Device.from_dict (d : DeviceDoc) : Except PyError Device := do
  let se ← Setting.from_dict d.setting
  let inf ← Info.from_dict d.info
  let s0 ← match d.states with
    | none => .error PyError.typeError
    | some [] => .error PyError.indexError
    | some (x :: _) => .ok x
  let st ← State.from_dict s0
  .ok ⟨se, inf, st⟩

/-! ## Partial merges (`update_from_dict`)

Each `update_from_dict` body is a list of atomic statements, one per
`if _x := data.get(k): ...` line of the source, run in source order. -/

def intTruthy (i : Int) : Bool := i != 0

def strTruthy (s : String) : Bool := s != ""

def bodyAtoms (d : BodyDoc) : List (Upd Body) :=
  [updF d.range intTruthy (fun i => pyEnum "BodyRange" [0, 1] (some i))
      (fun s v => { s with range := some v }),
    updF d.presence intTruthy (fun i => pyEnum "BodyPresence" [0, 1] (some i))
      (fun s v => { s with presence := some v }),
    updF d.energy intTruthy Except.ok (fun s v => { s with energy := some v }),
    updF d.movement intTruthy (fun i => pyEnum "BodyMovement" [0, 1, 2] (some i))
      (fun s v => { s with movement := some v }),
    updF d.distance intTruthy Except.ok (fun s v => { s with distance := some v }),
    updF d.location BodyLocationDoc.isTruthy (fun x => BodyLocation.from_dict (some x))
      (fun s v => { s with location := v })]

def Body.update_from_dict (b : Body) (d : BodyDoc) : Body × Option PyError :=
  runChain (bodyAtoms d) b

def heartAtoms (d : HeartDoc) : List (Upd Heart) :=
  [updF d.rate intTruthy Except.ok (fun s v => { s with rate := some v }),
    updF d.waves WaveDoc.isTruthy (fun x => Wave.from_dict (some x))
      (fun s v => { s with waves := v })]

def Heart.update_from_dict (h : Heart) (d : HeartDoc) : Heart × Option PyError :=
  runChain (heartAtoms d) h

def breathAtoms (d : BreathDoc) : List (Upd Breath) :=
  [updF d.info intTruthy (fun i => pyEnum "BreathInfo" [0, 1, 2, 3, 4] (some i))
      (fun s v => { s with info := some v }),
    updF d.rate intTruthy Except.ok (fun s v => { s with rate := some v }),
    updF d.waves WaveDoc.isTruthy (fun x => Wave.from_dict (some x))
      (fun s v => { s with waves := v })]

def Breath.update_from_dict (b : Breath) (d : BreathDoc) : Breath × Option PyError :=
  runChain (breathAtoms d) b

/-- Note the source's `self.status = _status` stores the raw value with no
`SleepStatus` conversion, while `self.away = SleepAway(_away)` validates. -/
def sleepAtoms (d : SleepDoc) : List (Upd Sleep) :=
  [updF d.away intTruthy (fun i => pyEnum "SleepAway" [0, 1, 2] (some i))
      (fun s v => { s with away := some v }),
    updF d.status intTruthy Except.ok (fun s v => { s with status := some v }),
    updF d.awake intTruthy Except.ok (fun s v => { s with awake := some v }),
    updF d.light intTruthy Except.ok (fun s v => { s with light := some v }),
    updF d.deep intTruthy Except.ok (fun s v => { s with deep := some v }),
    updF d.score intTruthy Except.ok (fun s v => { s with score := some v }),
    updF d.overview SleepOverviewDoc.isTruthy
      (fun x => SleepOverview.from_dict (some x)) (fun s v => { s with overview := v }),
    updF d.quality SleepQualityDoc.isTruthy
      (fun x => SleepQuality.from_dict (some x)) (fun s v => { s with quality := v }),
    updF d.exception intTruthy (fun i => pyEnum "SleepException" [0, 1, 2, 3] (some i))
      (fun s v => { s with exception := some v }),
    updF d.rating intTruthy (fun i => pyEnum "SleepRating" [0, 1, 2, 3] (some i))
      (fun s v => { s with rating := some v }),
    updF d.struggle intTruthy (fun i => pyEnum "SleepStruggle" [0, 1, 2] (some i))
      (fun s v => { s with struggle := some v }),
    updF d.nobody intTruthy (fun i => pyEnum "SleepNobody" [0, 1, 2] (some i))
      (fun s v => { s with nobody := some v })]

def Sleep.update_from_dict (s : Sleep) (d : SleepDoc) : Sleep × Option PyError :=
  runChain (sleepAtoms d) s

/-- Source statement order: timestamp, body, breath, heart, sleep. -/
def stateAtoms (d : StateDoc) : List (Upd State) :=
  [updF d.timestamp intTruthy Except.ok (fun s v => { s with timestamp := some v }),
    updMerge d.body BodyDoc.isTruthy Body.update_from_dict
      (fun s => s.body) (fun s v => { s with body := v }),
    updMerge d.breath BreathDoc.isTruthy Breath.update_from_dict
      (fun s => s.breath) (fun s v => { s with breath := v }),
    updMerge d.heart HeartDoc.isTruthy Heart.update_from_dict
      (fun s => s.heart) (fun s v => { s with heart := v }),
    updMerge d.sleep SleepDoc.isTruthy Sleep.update_from_dict
      (fun s => s.sleep) (fun s v => { s with sleep := v })]

def State.update_from_dict (s : State) (d : StateDoc) : State × Option PyError :=
  runChain (stateAtoms d) s

/-- The eighth statement reads key `"mac"` and assigns attribute `mac`
(`self.mac = _mac`), not `mac_addr`. -/
def infoAtoms (d : InfoDoc) : List (Upd Info) :=
  [updF d.model strTruthy Except.ok (fun s v => { s with model := some v }),
    updF d.id strTruthy Except.ok (fun s v => { s with id := some v }),
    updF d.hardware strTruthy Except.ok (fun s v => { s with hardware := some v }),
    updF d.firmware strTruthy Except.ok (fun s v => { s with firmware := some v }),
    updF d.version strTruthy Except.ok (fun s v => { s with version := some v }),
    updF d.free_heap intTruthy Except.ok (fun s v => { s with free_heap := some v }),
    updF d.ip strTruthy Except.ok (fun s v => { s with ip := some v }),
    updF d.mac strTruthy Except.ok (fun s v => { s with mac := some v }),
    updF d.name strTruthy Except.ok (fun s v => { s with name := some v })]

def Info.update_from_dict (i : Info) (d : InfoDoc) : Info × Option PyError :=
  runChain (infoAtoms d) i

def settingAtoms (d : SettingDoc) : List (Upd Setting) :=
  [updF d.binding_count intTruthy Except.ok
      (fun s v => { s with binding_count := some v }),
    updF d.binding intTruthy Except.ok (fun s v => { s with binding := some v }),
    updF d.realtime_ws intTruthy Except.ok (fun s v => { s with realtime_ws := some v }),
    updF d.realtime_mq intTruthy Except.ok (fun s v => { s with realtime_mq := some v }),
    updF d.body intTruthy Except.ok (fun s v => { s with body := some v }),
    updF d.heart intTruthy Except.ok (fun s v => { s with heart := some v }),
    updF d.breath intTruthy Except.ok (fun s v => { s with breath := some v }),
    updF d.sleep intTruthy Except.ok (fun s v => { s with sleep := some v }),
    updF d.mode intTruthy Except.ok (fun s v => { s with mode := some v }),
    updF d.nobody intTruthy Except.ok (fun s v => { s with nobody := some v }),
    updF d.nobody_duration intTruthy Except.ok
      (fun s v => { s with nobody_duration := some v }),
    updF d.struggle intTruthy Except.ok (fun s v => { s with struggle := some v }),
    updF d.stop_duration intTruthy Except.ok
      (fun s v => { s with stop_duration := some v })]

def Setting.update_from_dict (s : Setting) (d : SettingDoc) : Setting × Option PyError :=
  runChain (settingAtoms d) s

/-- `self.state.update_from_dict(_states[0])`: only index 0 of a truthy
(nonempty) `states` list is merged.  The `[]` branch is unreachable under
the truthiness guard; it is a no-op. -/
def statesChild (st : State) : List StateDoc → State × Option PyError
  | s0 :: _ => State.update_from_dict st s0
  | [] => (st, none)

def deviceAtoms (d : DeviceDoc) : List (Upd Device) :=
  [updMerge d.setting SettingDoc.isTruthy Setting.update_from_dict
      (fun s => s.setting) (fun s v => { s with setting := v }),
    updMerge d.info InfoDoc.isTruthy Info.update_from_dict
      (fun s => s.info) (fun s v => { s with info := v }),
    updMerge d.states (fun l => !l.isEmpty) statesChild
      (fun s => s.state) (fun s v => { s with state := v })]

def Device.update_from_dict (dev : Device) (d : DeviceDoc) : Device × Option PyError :=
  runChain (deviceAtoms d) dev

/-! ## Idempotence of the merge chains

Each record's `update_from_dict` run twice in a row from any state gives
the same final state and error as one run: every atomic statement either
skips, raises with the state kept, or assigns a value that does not
depend on the fields it writes, and distinct statements of one chain
write distinct fields. -/

theorem body_replay (d : BodyDoc) : ReplayP (fun b => Body.update_from_dict b d) := by
  apply replay_runChain
  · intro f hf
    fin_cases hf <;> exact replay_updF (fun _ _ => rfl)
  · refine ⟨?_, ?_, ?_, ?_, ?_, ?_, trivial⟩ <;>
      (intro g hg; fin_cases hg) <;>
      exact fixPres_updF (comm_updF (fun _ _ _ => rfl))

theorem heart_replay (d : HeartDoc) : ReplayP (fun h => Heart.update_from_dict h d) := by
  apply replay_runChain
  · intro f hf
    fin_cases hf <;> exact replay_updF (fun _ _ => rfl)
  · refine ⟨?_, ?_, trivial⟩ <;>
      intro g hg <;> fin_cases hg <;>
      exact fixPres_updF (comm_updF (fun _ _ _ => rfl))

theorem breath_replay (d : BreathDoc) : ReplayP (fun b => Breath.update_from_dict b d) := by
  apply replay_runChain
  · intro f hf
    fin_cases hf <;> exact replay_updF (fun _ _ => rfl)
  · refine ⟨?_, ?_, ?_, trivial⟩ <;>
      (intro g hg; fin_cases hg) <;>
      exact fixPres_updF (comm_updF (fun _ _ _ => rfl))

theorem sleep_replay (d : SleepDoc) : ReplayP (fun s => Sleep.update_from_dict s d) := by
  apply replay_runChain
  · intro f hf
    fin_cases hf <;> exact replay_updF (fun _ _ => rfl)
  · refine ⟨?_, ?_, ?_, ?_, ?_, ?_, ?_, ?_, ?_, ?_, ?_, ?_, trivial⟩ <;>
      (intro g hg; fin_cases hg) <;>
      exact fixPres_updF (comm_updF (fun _ _ _ => rfl))

theorem info_replay (d : InfoDoc) : ReplayP (fun i => Info.update_from_dict i d) := by
  apply replay_runChain
  · intro f hf
    fin_cases hf <;> exact replay_updF (fun _ _ => rfl)
  · refine ⟨?_, ?_, ?_, ?_, ?_, ?_, ?_, ?_, ?_, trivial⟩ <;>
      (intro g hg; fin_cases hg) <;>
      exact fixPres_updF (comm_updF (fun _ _ _ => rfl))

theorem setting_replay (d : SettingDoc) : ReplayP (fun s => Setting.update_from_dict s d) := by
  apply replay_runChain
  · intro f hf
    fin_cases hf <;> exact replay_updF (fun _ _ => rfl)
  · refine ⟨?_, ?_, ?_, ?_, ?_, ?_, ?_, ?_, ?_, ?_, ?_, ?_, ?_, trivial⟩ <;>
      (intro g hg; fin_cases hg) <;>
      exact fixPres_updF (comm_updF (fun _ _ _ => rfl))

theorem state_replay (d : StateDoc) : ReplayP (fun s => State.update_from_dict s d) := by
  apply replay_runChain
  · intro f hf
    fin_cases hf <;>
      first
        | exact replay_updF (fun _ _ => rfl)
        | exact replay_updMerge (fun _ _ => rfl) (fun _ _ _ => rfl)
            (fun dd c => body_replay dd c)
        | exact replay_updMerge (fun _ _ => rfl) (fun _ _ _ => rfl)
            (fun dd c => breath_replay dd c)
        | exact replay_updMerge (fun _ _ => rfl) (fun _ _ _ => rfl)
            (fun dd c => heart_replay dd c)
        | exact replay_updMerge (fun _ _ => rfl) (fun _ _ _ => rfl)
            (fun dd c => sleep_replay dd c)
  · refine ⟨?_, ?_, ?_, ?_, ?_, trivial⟩ <;>
      (intro g hg; fin_cases hg) <;>
      first
        | exact fixPres_updF (comm_updMerge (fun _ _ => rfl) (fun _ _ _ => rfl))
        | exact fixPres_updMerge (pres_updMerge (fun _ _ => rfl))
            (comm_updMerge (fun _ _ => rfl) (fun _ _ _ => rfl))

theorem statesChild_replay (l : List StateDoc) (c : State) :
    statesChild (statesChild c l).1 l = statesChild c l := by
  cases l with
  | nil => rfl
  | cons s0 r => exact state_replay s0 c

theorem device_replay (d : DeviceDoc) : ReplayP (fun dev => Device.update_from_dict dev d) := by
  apply replay_runChain
  · intro f hf
    fin_cases hf <;>
      first
        | exact replay_updMerge (fun _ _ => rfl) (fun _ _ _ => rfl)
            (fun dd c => setting_replay dd c)
        | exact replay_updMerge (fun _ _ => rfl) (fun _ _ _ => rfl)
            (fun dd c => info_replay dd c)
        | exact replay_updMerge (fun _ _ => rfl) (fun _ _ _ => rfl)
            (fun dd c => statesChild_replay dd c)
  · refine ⟨?_, ?_, ?_, trivial⟩ <;>
      (intro g hg; fin_cases hg) <;>
      exact fixPres_updMerge (pres_updMerge (fun _ _ => rfl))
        (comm_updMerge (fun _ _ => rfl) (fun _ _ _ => rfl))

/-! ## Frame lemmas: a key absent from the update document leaves the
corresponding field unchanged, for every record with a partial merge. -/

theorem body_frame (b : Body) (d : BodyDoc) :
    ((Body.update_from_dict b { d with range := none }).1).range = b.range ∧
    ((Body.update_from_dict b { d with presence := none }).1).presence = b.presence ∧
    ((Body.update_from_dict b { d with energy := none }).1).energy = b.energy ∧
    ((Body.update_from_dict b { d with movement := none }).1).movement = b.movement ∧
    ((Body.update_from_dict b { d with distance := none }).1).distance = b.distance ∧
    ((Body.update_from_dict b { d with location := none }).1).location = b.location := by
  refine ⟨?_, ?_, ?_, ?_, ?_, ?_⟩ <;>
    (refine pres_runChain _ _ ?_ b; intro f hf; fin_cases hf) <;>
    first
      | exact pres_updF (fun _ _ => rfl)
      | exact pres_updF_none

theorem heart_frame (h : Heart) (d : HeartDoc) :
    ((Heart.update_from_dict h { d with rate := none }).1).rate = h.rate ∧
    ((Heart.update_from_dict h { d with waves := none }).1).waves = h.waves := by
  refine ⟨?_, ?_⟩ <;>
    (refine pres_runChain _ _ ?_ h; intro f hf; fin_cases hf) <;>
    first
      | exact pres_updF (fun _ _ => rfl)
      | exact pres_updF_none

theorem breath_frame (b : Breath) (d : BreathDoc) :
    ((Breath.update_from_dict b { d with info := none }).1).info = b.info ∧
    ((Breath.update_from_dict b { d with rate := none }).1).rate = b.rate ∧
    ((Breath.update_from_dict b { d with waves := none }).1).waves = b.waves := by
  refine ⟨?_, ?_, ?_⟩ <;>
    (refine pres_runChain _ _ ?_ b; intro f hf; fin_cases hf) <;>
    first
      | exact pres_updF (fun _ _ => rfl)
      | exact pres_updF_none

theorem sleep_frame (s : Sleep) (d : SleepDoc) :
    ((Sleep.update_from_dict s { d with away := none }).1).away = s.away ∧
    ((Sleep.update_from_dict s { d with status := none }).1).status = s.status ∧
    ((Sleep.update_from_dict s { d with awake := none }).1).awake = s.awake ∧
    ((Sleep.update_from_dict s { d with light := none }).1).light = s.light ∧
    ((Sleep.update_from_dict s { d with deep := none }).1).deep = s.deep ∧
    ((Sleep.update_from_dict s { d with score := none }).1).score = s.score ∧
    ((Sleep.update_from_dict s { d with overview := none }).1).overview = s.overview ∧
    ((Sleep.update_from_dict s { d with quality := none }).1).quality = s.quality ∧
    ((Sleep.update_from_dict s { d with exception := none }).1).exception = s.exception ∧
    ((Sleep.update_from_dict s { d with rating := none }).1).rating = s.rating ∧
    ((Sleep.update_from_dict s { d with struggle := none }).1).struggle = s.struggle ∧
    ((Sleep.update_from_dict s { d with nobody := none }).1).nobody = s.nobody := by
  refine ⟨?_, ?_, ?_, ?_, ?_, ?_, ?_, ?_, ?_, ?_, ?_, ?_⟩ <;>
    (refine pres_runChain _ _ ?_ s; intro f hf; fin_cases hf) <;>
    first
      | exact pres_updF (fun _ _ => rfl)
      | exact pres_updF_none

theorem state_frame (st : State) (d : StateDoc) :
    ((State.update_from_dict st { d with timestamp := none }).1).timestamp = st.timestamp ∧
    ((State.update_from_dict st { d with body := none }).1).body = st.body ∧
    ((State.update_from_dict st { d with heart := none }).1).heart = st.heart ∧
    ((State.update_from_dict st { d with breath := none }).1).breath = st.breath ∧
    ((State.update_from_dict st { d with sleep := none }).1).sleep = st.sleep := by
  refine ⟨?_, ?_, ?_, ?_, ?_⟩ <;>
    (refine pres_runChain _ _ ?_ st; intro f hf; fin_cases hf) <;>
    first
      | exact pres_updF (fun _ _ => rfl)
      | exact pres_updF_none
      | exact pres_updMerge (fun _ _ => rfl)
      | exact pres_updMerge_none

theorem info_frame (i : Info) (d : InfoDoc) :
    ((Info.update_from_dict i { d with model := none }).1).model = i.model ∧
    ((Info.update_from_dict i { d with id := none }).1).id = i.id ∧
    ((Info.update_from_dict i { d with hardware := none }).1).hardware = i.hardware ∧
    ((Info.update_from_dict i { d with firmware := none }).1).firmware = i.firmware ∧
    ((Info.update_from_dict i { d with version := none }).1).version = i.version ∧
    ((Info.update_from_dict i { d with free_heap := none }).1).free_heap = i.free_heap ∧
    ((Info.update_from_dict i { d with ip := none }).1).ip = i.ip ∧
    ((Info.update_from_dict i { d with mac := none }).1).mac = i.mac ∧
    ((Info.update_from_dict i { d with name := none }).1).name = i.name := by
  refine ⟨?_, ?_, ?_, ?_, ?_, ?_, ?_, ?_, ?_⟩ <;>
    (refine pres_runChain _ _ ?_ i; intro f hf; fin_cases hf) <;>
    first
      | exact pres_updF (fun _ _ => rfl)
      | exact pres_updF_none

theorem setting_frame (s : Setting) (d : SettingDoc) :
    ((Setting.update_from_dict s { d with binding_count := none }).1).binding_count =
      s.binding_count ∧
    ((Setting.update_from_dict s { d with binding := none }).1).binding = s.binding ∧
    ((Setting.update_from_dict s { d with realtime_ws := none }).1).realtime_ws =
      s.realtime_ws ∧
    ((Setting.update_from_dict s { d with realtime_mq := none }).1).realtime_mq =
      s.realtime_mq ∧
    ((Setting.update_from_dict s { d with body := none }).1).body = s.body ∧
    ((Setting.update_from_dict s { d with heart := none }).1).heart = s.heart ∧
    ((Setting.update_from_dict s { d with breath := none }).1).breath = s.breath ∧
    ((Setting.update_from_dict s { d with sleep := none }).1).sleep = s.sleep ∧
    ((Setting.update_from_dict s { d with mode := none }).1).mode = s.mode ∧
    ((Setting.update_from_dict s { d with nobody := none }).1).nobody = s.nobody ∧
    ((Setting.update_from_dict s { d with nobody_duration := none }).1).nobody_duration =
      s.nobody_duration ∧
    ((Setting.update_from_dict s { d with struggle := none }).1).struggle = s.struggle ∧
    ((Setting.update_from_dict s { d with stop_duration := none }).1).stop_duration =
      s.stop_duration := by
  refine ⟨?_, ?_, ?_, ?_, ?_, ?_, ?_, ?_, ?_, ?_, ?_, ?_, ?_⟩ <;>
    (refine pres_runChain _ _ ?_ s; intro f hf; fin_cases hf) <;>
    first
      | exact pres_updF (fun _ _ => rfl)
      | exact pres_updF_none

theorem device_frame (dev : Device) (d : DeviceDoc) :
    ((Device.update_from_dict dev { d with setting := none }).1).setting = dev.setting ∧
    ((Device.update_from_dict dev { d with info := none }).1).info = dev.info ∧
    ((Device.update_from_dict dev { d with states := none }).1).state = dev.state := by
  refine ⟨?_, ?_, ?_⟩ <;>
    (refine pres_runChain _ _ ?_ dev; intro f hf; fin_cases hf) <;>
    first
      | exact pres_updMerge (fun _ _ => rfl)
      | exact pres_updMerge_none

/-! ## Concrete documents and records used by the claims -/

/-- A fully valid state document with timestamp 200. -/
def stateDoc200 : StateDoc :=
  { timestamp := some 200,
    body := some
      { range := some 1, presence := some 1, energy := some 10,
        movement := some 1, distance := some 3,
        location := some { x := some 1, y := some 2, z := some 3 } },
    heart := some
      { rate := some 72,
        waves := some { w0 := some 1, w1 := some 2, w2 := some 3, w3 := some 4, w4 := some 5 } },
    breath := some
      { info := some 1, rate := some 14,
        waves := some { w0 := some 5, w1 := some 4, w2 := some 3, w3 := some 2, w4 := some 1 } },
    sleep := some
      { away := some 1, status := some 1, awake := some 10, light := some 20,
        deep := some 30, score := some 80,
        overview := some
          { presence := some 1, status := some 1, breath := some 14, heart := some 72,
            turn := some 4, leratio := some 10, seratio := some 20, pause := some 1 },
        quality := some
          { score := some 80, duration := some 400, awake := some 40, light := some 200,
            deep := some 160, aduration := some 5, away := some 2, turn := some 4,
            breath := some 14, heart := some 72, pause := some 1 },
        exception := some 3, rating := some 1, struggle := some 1, nobody := some 1 } }

/-- A second states element; it is ignored entirely, so it can be sparse. -/
def stateDoc100 : StateDoc := { timestamp := some 100 }

def settingDocFull : SettingDoc :=
  { binding_count := some 2, binding := some 1, realtime_ws := some 1,
    realtime_mq := some 1, body := some 1, heart := some 1, breath := some 1,
    sleep := some 1, mode := some 1, nobody := some 1, nobody_duration := some 60,
    struggle := some 1, stop_duration := some 5 }

def infoDocFull : InfoDoc :=
  { model := some "OWR", id := some "abc123", hardware := some "h1",
    firmware := some "f2", version := some "v3", free_heap := some 1000,
    ip := some "192.168.1.2", mac_addr := some "AA:BB:CC:DD:EE:FF",
    name := some "care" }

/-- A full, valid snapshot whose `states` holds two elements. -/
def fullDoc : DeviceDoc :=
  { setting := some settingDocFull, info := some infoDocFull,
    states := some [stateDoc200, stateDoc100] }

/-- Full snapshot lacking the `info` key. -/
def noInfoDoc : DeviceDoc :=
  { setting := some settingDocFull, states := some [stateDoc200] }

/-- Full snapshot lacking the `states` key. -/
def noStatesDoc : DeviceDoc :=
  { setting := some settingDocFull, info := some infoDocFull }

/-- Full snapshot whose `states` is the empty array. -/
def emptyStatesDoc : DeviceDoc :=
  { setting := some settingDocFull, info := some infoDocFull, states := some [] }

def sleep200 : Sleep :=
  ⟨some 1, some 1, some 10, some 20, some 30, some 80,
    ⟨some 1, some 1, some 14, some 72, some 4, some 10, some 20, some 1⟩,
    ⟨some 80, some 400, some 40, some 200, some 160, some 5, some 2, some 4,
      some 14, some 72, some 1⟩,
    some 3, some 1, some 1, some 1⟩

/-- The state that decoding `stateDoc200` yields. -/
def st200 : State :=
  ⟨some 200,
    ⟨some 1, some 1, some 10, some 1, some 3, ⟨some 1, some 2, some 3⟩⟩,
    ⟨some 72, ⟨some 1, some 2, some 3, some 4, some 5⟩⟩,
    ⟨some 1, some 14, ⟨some 5, some 4, some 3, some 2, some 1⟩⟩,
    sleep200⟩

def setting200 : Setting :=
  ⟨some 2, some 1, some 1, some 1, some 1, some 1, some 1, some 1, some 1,
    some 1, some 60, some 1, some 5⟩

def info200 : Info :=
  ⟨some "OWR", some "abc123", some "h1", some "f2", some "v3", some 1000,
    some "192.168.1.2", some "AA:BB:CC:DD:EE:FF", some "care", none⟩

/-- The device that decoding `fullDoc` yields. -/
def dev200 : Device := ⟨setting200, info200, st200⟩

/-- `{"heart": {"rate": 0}}`. -/
def heartZeroDoc : StateDoc := { heart := some { rate := some 0 } }

/-- `{"heart": {"rate": r}}`. -/
def heartRateDoc (r : Int) : StateDoc := { heart := some { rate := some r } }

/-- `{"body": {"energy": 50}}`. -/
def bodyEnergy50Doc : StateDoc := { body := some { energy := some 50 } }

/-- `{"location": {"x": 5}}` as a Body update. -/
def locX5Doc : BodyDoc := { location := some { x := some 5 } }

/-- `{"range": 1, "movement": 9}` as a Body update: `movement` is outside
`BodyMovement`'s set, `range` is valid and processed first. -/
def rangeMove9Doc : BodyDoc := { range := some 1, movement := some 9 }

/-- `{"range": 9}` as a Body update. -/
def range9Doc : BodyDoc := { range := some 9 }

/-- `{"range": 9, ...}`: a full body document whose `range` is out of range. -/
def bodyRange9FullDoc : BodyDoc :=
  { range := some 9, presence := some 1, energy := some 5, movement := some 1,
    distance := some 2, location := some { x := some 1, y := some 1, z := some 1 } }

/-- `{"binding": 9}`: a setting document with an out-of-range switch. -/
def binding9Doc : SettingDoc := { binding := some 9 }

/-- The Setting that decoding `binding9Doc` yields: the raw 9 is stored. -/
def settingStored9 : Setting :=
  ⟨none, some 9, none, none, none, none, none, none, none, none, none, none, none⟩

/-- `{"status": 9}` as a Sleep update: 9 is outside `SleepStatus`'s set. -/
def status9Doc : SleepDoc := { status := some 9 }

/-- A full, valid sleep document except that `away` is 9, outside
`SleepAway`'s set. -/
def sleepAway9Doc : SleepDoc :=
  { away := some 9, status := some 1, awake := some 10, light := some 20,
    deep := some 30, score := some 80,
    overview := some
      { presence := some 1, status := some 1, breath := some 14, heart := some 72,
        turn := some 4, leratio := some 10, seratio := some 20, pause := some 1 },
    quality := some
      { score := some 80, duration := some 400, awake := some 40, light := some 200,
        deep := some 160, aduration := some 5, away := some 2, turn := some 4,
        breath := some 14, heart := some 72, pause := some 1 },
    exception := some 3, rating := some 1, struggle := some 1, nobody := some 1 }

/-- A concrete body record with a fully known location. -/
def b0 : Body :=
  ⟨some 0, some 1, some 10, some 1, some 3, ⟨some 1, some 2, some 3⟩⟩

/-! ## Claims -/

/-- Claim C1, counterexample.  The claim says the absent-key-unchanged
rule applies at every nesting depth, including the fields of `location`
when its parent key is present.  It does not: merging
`{"location": {"x": 5}}` into `b0` (whose `location.y` is 2) rebuilds the
location wholesale via `from_dict`, so `location.y` becomes `none`. -/
theorem C1_counterexample :
    ((Body.update_from_dict b0 locX5Doc).1).location.y ≠ b0.location.y := by decide

/-- Claim C1 (amended).  For every record with a partial-merge operation,
a top-level key absent from the update document leaves the corresponding
field unchanged; merging `{"body": {"energy": 50}}` changes only
`body.energy`; but the value objects `waves`, `location`, `overview` and
`quality` are rebuilt wholesale from the present sub-document, so their
subfields absent from the update become `none` rather than keeping prior
values (shown here for `location`). -/
theorem C1_amended :
    (∀ st : State, State.update_from_dict st bodyEnergy50Doc =
      ({ st with body := { st.body with energy := some 50 } }, none)) ∧
    (∀ (b : Body) (d : BodyDoc),
      ((Body.update_from_dict b { d with range := none }).1).range = b.range ∧
      ((Body.update_from_dict b { d with presence := none }).1).presence = b.presence ∧
      ((Body.update_from_dict b { d with energy := none }).1).energy = b.energy ∧
      ((Body.update_from_dict b { d with movement := none }).1).movement = b.movement ∧
      ((Body.update_from_dict b { d with distance := none }).1).distance = b.distance ∧
      ((Body.update_from_dict b { d with location := none }).1).location = b.location) ∧
    (∀ (h : Heart) (d : HeartDoc),
      ((Heart.update_from_dict h { d with rate := none }).1).rate = h.rate ∧
      ((Heart.update_from_dict h { d with waves := none }).1).waves = h.waves) ∧
    (∀ (b : Breath) (d : BreathDoc),
      ((Breath.update_from_dict b { d with info := none }).1).info = b.info ∧
      ((Breath.update_from_dict b { d with rate := none }).1).rate = b.rate ∧
      ((Breath.update_from_dict b { d with waves := none }).1).waves = b.waves) ∧
    (∀ (s : Sleep) (d : SleepDoc),
      ((Sleep.update_from_dict s { d with away := none }).1).away = s.away ∧
      ((Sleep.update_from_dict s { d with status := none }).1).status = s.status ∧
      ((Sleep.update_from_dict s { d with awake := none }).1).awake = s.awake ∧
      ((Sleep.update_from_dict s { d with light := none }).1).light = s.light ∧
      ((Sleep.update_from_dict s { d with deep := none }).1).deep = s.deep ∧
      ((Sleep.update_from_dict s { d with score := none }).1).score = s.score ∧
      ((Sleep.update_from_dict s { d with overview := none }).1).overview = s.overview ∧
      ((Sleep.update_from_dict s { d with quality := none }).1).quality = s.quality ∧
      ((Sleep.update_from_dict s { d with exception := none }).1).exception = s.exception ∧
      ((Sleep.update_from_dict s { d with rating := none }).1).rating = s.rating ∧
      ((Sleep.update_from_dict s { d with struggle := none }).1).struggle = s.struggle ∧
      ((Sleep.update_from_dict s { d with nobody := none }).1).nobody = s.nobody) ∧
    (∀ (st : State) (d : StateDoc),
      ((State.update_from_dict st { d with timestamp := none }).1).timestamp =
        st.timestamp ∧
      ((State.update_from_dict st { d with body := none }).1).body = st.body ∧
      ((State.update_from_dict st { d with heart := none }).1).heart = st.heart ∧
      ((State.update_from_dict st { d with breath := none }).1).breath = st.breath ∧
      ((State.update_from_dict st { d with sleep := none }).1).sleep = st.sleep) ∧
    (∀ (i : Info) (d : InfoDoc),
      ((Info.update_from_dict i { d with model := none }).1).model = i.model ∧
      ((Info.update_from_dict i { d with id := none }).1).id = i.id ∧
      ((Info.update_from_dict i { d with hardware := none }).1).hardware = i.hardware ∧
      ((Info.update_from_dict i { d with firmware := none }).1).firmware = i.firmware ∧
      ((Info.update_from_dict i { d with version := none }).1).version = i.version ∧
      ((Info.update_from_dict i { d with free_heap := none }).1).free_heap = i.free_heap ∧
      ((Info.update_from_dict i { d with ip := none }).1).ip = i.ip ∧
      ((Info.update_from_dict i { d with mac := none }).1).mac = i.mac ∧
      ((Info.update_from_dict i { d with name := none }).1).name = i.name) ∧
    (∀ (s : Setting) (d : SettingDoc),
      ((Setting.update_from_dict s { d with binding_count := none }).1).binding_count =
        s.binding_count ∧
      ((Setting.update_from_dict s { d with binding := none }).1).binding = s.binding ∧
      ((Setting.update_from_dict s { d with realtime_ws := none }).1).realtime_ws =
        s.realtime_ws ∧
      ((Setting.update_from_dict s { d with realtime_mq := none }).1).realtime_mq =
        s.realtime_mq ∧
      ((Setting.update_from_dict s { d with body := none }).1).body = s.body ∧
      ((Setting.update_from_dict s { d with heart := none }).1).heart = s.heart ∧
      ((Setting.update_from_dict s { d with breath := none }).1).breath = s.breath ∧
      ((Setting.update_from_dict s { d with sleep := none }).1).sleep = s.sleep ∧
      ((Setting.update_from_dict s { d with mode := none }).1).mode = s.mode ∧
      ((Setting.update_from_dict s { d with nobody := none }).1).nobody = s.nobody ∧
      ((Setting.update_from_dict s { d with nobody_duration := none }).1).nobody_duration =
        s.nobody_duration ∧
      ((Setting.update_from_dict s { d with struggle := none }).1).struggle = s.struggle ∧
      ((Setting.update_from_dict s { d with stop_duration := none }).1).stop_duration =
        s.stop_duration) ∧
    (∀ (dev : Device) (d : DeviceDoc),
      ((Device.update_from_dict dev { d with setting := none }).1).setting = dev.setting ∧
      ((Device.update_from_dict dev { d with info := none }).1).info = dev.info ∧
      ((Device.update_from_dict dev { d with states := none }).1).state = dev.state) ∧
    (∀ b : Body, Body.update_from_dict b locX5Doc =
      ({ b with location := ⟨some 5, none, none⟩ }, none)) :=
  ⟨fun _ => rfl, body_frame, heart_frame, breath_frame, sleep_frame, state_frame,
    info_frame, setting_frame, device_frame, fun _ => rfl⟩

/-- Claim C2, counterexample.  `binding` is a setting switch
(claimed closed set {0, 1}); decoding `{"binding": 9}` does not fail and
the raw 9 is stored, because `Setting.from_dict` applies no enum
constructor. -/
theorem C2_counterexample :
    Setting.from_dict (some binding9Doc) = Except.ok settingStored9 ∧
    settingStored9.binding = some 9 := ⟨rfl, rfl⟩

/-- Claim C2 (amended).  Only fields passed through an `IntEnum`
constructor are validated, and an out-of-range integer there raises the
builtin `ValueError` carrying the enum class name and the value (there is
no `InvalidEnumValue` carrying the field name); nothing is stored and a
record being merged is untouched when the offending field comes first.
The setting switches, `sleep.away`/`sleep.status` at decode and
`sleep.status` at merge are stored raw with no validation at all. -/
theorem C2_amended :
    Body.from_dict (some bodyRange9FullDoc) =
      Except.error (PyError.valueError "BodyRange" (some 9)) ∧
    (∀ b : Body, Body.update_from_dict b range9Doc =
      (b, some (PyError.valueError "BodyRange" (some 9)))) ∧
    Setting.from_dict (some binding9Doc) = Except.ok settingStored9 ∧
    (∀ s : Setting, Setting.update_from_dict s binding9Doc =
      ({ s with binding := some 9 }, none)) ∧
    Sleep.from_dict (some sleepAway9Doc) =
      Except.ok { sleep200 with away := some 9 } ∧
    (∀ s : Sleep, Sleep.update_from_dict s status9Doc =
      ({ s with status := some 9 }, none)) ∧
    (∀ s : Sleep, Sleep.update_from_dict s { away := some 9 } =
      (s, some (PyError.valueError "SleepAway" (some 9)))) :=
  ⟨rfl, fun _ => rfl, rfl, fun _ => rfl, rfl, fun _ => rfl, fun _ => rfl⟩

/-- Claim C3, counterexample.  Merging `{"range": 1, "movement": 9}` into
`b0` raises on `movement`, yet `range` (processed first) was already
overwritten: the nested merge is not atomic. -/
theorem C3_counterexample :
    (Body.update_from_dict b0 rangeMove9Doc).2 =
      some (PyError.valueError "BodyMovement" (some 9)) ∧
    ((Body.update_from_dict b0 rangeMove9Doc).1).range ≠ b0.range := by
  refine ⟨rfl, ?_⟩
  decide

/-- Claim C3 (amended).  A partial update with an invalid code for a
validated field raises the same `ValueError` the decoder's enum
constructor raises, but the merge applies sequentially: statements before
the offending field keep their new values, the offending field and all
later ones are unchanged. -/
theorem C3_amended (b : Body) :
    Body.update_from_dict b rangeMove9Doc =
      ({ b with range := some 1 }, some (PyError.valueError "BodyMovement" (some 9))) := rfl

/-- Claim C4: merging `{"heart": {"rate": 0}}` onto a State whose heart
rate is a non-zero `r` leaves the rate at `r` — the zero value is falsy,
so the legacy truthiness test skips the assignment. -/
theorem C4_zero_suppression (st : State) (r : Int) (h : st.heart.rate = some r)
    (_hr : r ≠ 0) :
    ((State.update_from_dict st heartZeroDoc).1).heart.rate = some r := h

/-- Witness for C4 at `st200` (heart rate 72). -/
theorem C4_witness :
    st200.heart.rate = some 72 ∧ (72 : Int) ≠ 0 ∧
    ((State.update_from_dict st200 heartZeroDoc).1).heart.rate = some 72 :=
  ⟨rfl, by decide, C4_zero_suppression st200 72 rfl (by decide)⟩

/-- Claim C5: merging `{"heart": {"rate": r}}` for non-zero `r` (such as
65) overwrites the rate. -/
theorem C5_nonzero_overwrite (st : State) (r : Int) (hr : r ≠ 0) :
    ((State.update_from_dict st (heartRateDoc r)).1).heart.rate = some r := by
  have h1 : intTruthy r = true := by simpa [intTruthy] using hr
  simp [State.update_from_dict, stateAtoms, runChain, updMerge, updF,
    Heart.update_from_dict, heartAtoms, HeartDoc.isTruthy, heartRateDoc, h1]

/-- Witness for C5 at `st200` and rate 65. -/
theorem C5_witness :
    (65 : Int) ≠ 0 ∧
    ((State.update_from_dict st200 (heartRateDoc 65)).1).heart.rate = some 65 :=
  ⟨by decide, C5_nonzero_overwrite st200 65 (by decide)⟩

/-- Claim C6, counterexample.  Decoding a full snapshot lacking `info`
fails with the builtin `AttributeError` from `None.get(...)`, which is
not a `MissingField` naming `info`. -/
theorem C6_counterexample :
    Device.from_dict noInfoDoc = Except.error (PyError.attributeError "get") ∧
    PyError.attributeError "get" ≠ PyError.missingField "info" := by
  refine ⟨rfl, ?_⟩
  decide

/-- Claim C6 (amended).  Decoding a snapshot lacking `info` does fail and
the failure surfaces, but as the builtin `AttributeError`, not a typed
`MissingField` carrying the path; and the decoder does fabricate `None`
defaults for missing leaves: `Info.from_dict` on an empty object
succeeds with every field `None`. -/
theorem C6_amended :
    Device.from_dict noInfoDoc = Except.error (PyError.attributeError "get") ∧
    Info.from_dict (some ({} : InfoDoc)) =
      Except.ok ⟨none, none, none, none, none, none, none, none, none, none⟩ :=
  ⟨rfl, rfl⟩

/-- Claim C7: decoding `fullDoc` (whose `states` holds timestamps 200
then 100) keeps only element 0, yielding timestamp 200; and a
Device-level merge with a multi-element `states` array merges only
element 0 — it is indistinguishable from the singleton merge. -/
theorem C7_first_state :
    Device.from_dict fullDoc = Except.ok dev200 ∧
    dev200.state.timestamp = some 200 ∧
    (∀ (dev : Device) (s1 : StateDoc) (rest : List StateDoc),
      Device.update_from_dict dev { states := some (s1 :: rest) } =
        Device.update_from_dict dev { states := some [s1] }) :=
  ⟨rfl, rfl, fun _ _ _ => rfl⟩

/-- Claim C8: merging the same partial document twice in a row produces
exactly the same resulting device state (and the same error) as merging
it once. -/
theorem C8_idempotence (dev : Device) (d : DeviceDoc) :
    Device.update_from_dict (Device.update_from_dict dev d).1 d =
      Device.update_from_dict dev d :=
  device_replay d dev

/-- Claim C9, counterexample.  A full snapshot without the `states` key
fails with the builtin `TypeError` from subscripting `None`, which is not
the typed `MalformedDocument`. -/
theorem C9_counterexample :
    Device.from_dict noStatesDoc = Except.error PyError.typeError ∧
    PyError.typeError ≠ PyError.malformedDocument := by
  refine ⟨rfl, ?_⟩
  decide

/-- Claim C9 (amended).  A missing `states` key fails the decode with the
builtin `TypeError`, and an empty `states` array with `IndexError`; both
surface to the caller, but no typed `MalformedDocument` exists. -/
theorem C9_amended :
    Device.from_dict noStatesDoc = Except.error PyError.typeError ∧
    Device.from_dict emptyStatesDoc = Except.error PyError.indexError :=
  ⟨rfl, rfl⟩

/-- Claim C10: `Info.update_from_dict` never changes `mac_addr`,
whatever the update document contains — the merge consults the key
`"mac"` and assigns the separate `mac` attribute. -/
theorem C10_mac_addr_frame (i : Info) (d : InfoDoc) :
    ((Info.update_from_dict i d).1).mac_addr = i.mac_addr := by
  refine pres_runChain (fun s => s.mac_addr) _ ?_ i
  intro f hf
  fin_cases hf <;> exact pres_updF (fun _ _ => rfl)

end OwrCare
